import Mathlib

/-!
Shallow embedding of `k8s-pipeline-generator.js` (class `K8sPipelineGenerator`).

Conventions of the embedding:
* JS objects with fixed shape become structures; the mutable `this` of the
  class becomes an explicit `GenState` value threaded through the operations.
* JS template literals become string concatenation; literal braces and
  apostrophes inside string literals are written with the `\x7b`, `\x7d`
  and `\x27` escapes.
* `yaml.dump` is an external serialization capability; renderers that the
  source feeds through `yaml.dump` are modelled as returning the structured
  document (`Jv`) that the source builds, since equal documents serialize to
  equal text.
* A JS `throw` in an otherwise pure method is modelled with `Option`/an
  error component: `none`/`some msg` marks the thrown exception, and the
  state component of `addDeployStage` is the state of `this` after the call
  (unchanged when the method throws, because the throw precedes the push).
-/

/-- Environment-variable name/value pair, as in the `env` entries of the
JS stage and step objects. -/
structure EnvVar where
  name : String
  value : String
  deriving DecidableEq, Repr

/-- Step descriptor: the JS step objects have `name`, `image`, `command`
and an optional `env` list (absent modelled as `[]`). -/
structure Step where
  name : String
  image : String
  command : List String
  env : List EnvVar := []
  deriving DecidableEq, Repr

/-- Stage descriptor: the JS stage objects have `name`, `steps`, an
optional `env` list, and the informational `runAfter`/`parallel` fields
documented on `addStage`. -/
structure Stage where
  name : String
  steps : List Step := []
  env : List EnvVar := []
  runAfter : Option String := none
  parallel : Bool := false
  deriving DecidableEq, Repr

/-- Structured document value: mapping/sequence/scalar trees, the shape of
everything the source hands to `yaml.dump` or returns as a plain object. -/
inductive Jv where
  | str : String → Jv
  | num : Int → Jv
  | bool : Bool → Jv
  | arr : List Jv → Jv
  | obj : List (String × Jv) → Jv

/-- AWS registry descriptor (`options.registry.aws` in the constructor). -/
structure AwsRegistry where
  region : String
  accountId : String
  ecrRepository : String
  deriving DecidableEq, Repr

/-- State of a `K8sPipelineGenerator` instance (the fields set by the
constructor plus the mutable `stages` list). -/
structure GenState where
  projectName : String
  repoUrl : String
  branch : String
  nspace : String
  dockerRegistry : String
  deploymentConfig : Jv := Jv.obj []
  stages : List Stage := []
  environments : List String := ["dev", "staging", "prod"]
  dockerfilePath : String
  registry : AwsRegistry

/-- Constructor options; `none` models an absent key.  The field `nspace`
embeds the JS field `namespace`, which is a reserved word in Lean. -/
structure GenOptions where
  projectName : Option String := none
  repoUrl : Option String := none
  branch : Option String := none
  nspace : Option String := none
  dockerRegistry : Option String := none
  deploymentConfig : Option Jv := none
  dockerfilePath : Option String := none
  registry : Option AwsRegistry := none

/-- JS `a || b` for string options: an absent or empty (falsy) string
falls back to the default. -/
def jsOrStr (o : Option String) (d : String) : String :=
  match o with
  | none => d
  | some s => if s = "" then d else s

/-- Constructor `new K8sPipelineGenerator(options)`. -/
def mkGenerator (options : GenOptions) : GenState :=
  let projectName := jsOrStr options.projectName "k8s-app"
  { projectName := projectName
    repoUrl := jsOrStr options.repoUrl ""
    branch := jsOrStr options.branch "main"
    nspace := jsOrStr options.nspace "default"
    dockerRegistry := jsOrStr options.dockerRegistry ""
    deploymentConfig := options.deploymentConfig.getD (Jv.obj [])
    stages := []
    environments := ["dev", "staging", "prod"]
    dockerfilePath := jsOrStr options.dockerfilePath "./Dockerfile"
    registry := options.registry.getD
      { region := "us-east-1"
        accountId := "123456789012"
        ecrRepository := projectName ++ "-repo" } }

/-- Method `addStage(stage)`: appends with no validation. -/
def addStage (g : GenState) (stage : Stage) : GenState :=
  { g with stages := g.stages ++ [stage] }

/-- Method `addTestStage(command, image)`. -/
def addTestStage (g : GenState) (command : String := "npm test")
    (image : String := "node:14") : GenState :=
  addStage g
    { name := "test"
      steps := [{ name := "run-tests", image := image,
                  command := ["sh", "-c", command] }] }

/-- Method `addBuildStage(buildCommand, image)`. -/
def addBuildStage (g : GenState) (buildCommand : String := "npm run build")
    (image : String := "node:14") : GenState :=
  addStage g
    { name := "build"
      steps := [{ name := "build-app", image := image,
                  command := ["sh", "-c", buildCommand] }] }

/-- Method `addDockerBuildStage(imageName, tag)`. -/
def addDockerBuildStage (g : GenState) (imageName : String)
    (tag : String := "latest") : GenState :=
  let imageTag := g.dockerRegistry ++ "/" ++ imageName ++ ":" ++ tag
  addStage g
    { name := "docker-build"
      steps := [{ name := "build-and-push"
                  image := "docker:20.10.12-dind"
                  command := ["sh", "-c",
                    "docker build -t " ++ imageTag ++ " -f " ++
                      g.dockerfilePath ++ " . && docker push " ++ imageTag]
                  env := [{ name := "DOCKER_HOST",
                            value := "tcp://localhost:2375" }] }] }

/-- Stage object pushed by `addDeployStage` for a valid environment.  In
the source the `env` list carrying `ENVIRONMENT` sits on the stage object
itself (sibling of `steps`), not on the step. -/
def deployStageFor (environment : String) : Stage :=
  { name := "deploy-to-" ++ environment
    steps := [{ name := "kubectl-apply"
                image := "bitnami/kubectl:latest"
                command := ["sh", "-c",
                  "kubectl apply -f /workspace/k8s/$\x7bENVIRONMENT\x7d/"] }]
    env := [{ name := "ENVIRONMENT", value := environment }] }

/-- Method `addDeployStage(environment, resources)`.  The result pairs the
state of `this` after the call with the thrown error message, if any; the
throw happens before the push, so on error the state is unchanged.  The
`resources` parameter is accepted and never read, as in the source. -/
def addDeployStage (g : GenState) (environment : String := "dev")
    (resources : Jv := Jv.obj []) : GenState × Option String :=
  if environment ∈ g.environments then
    (addStage g (deployStageFor environment), none)
  else
    (g, some ("Environment " ++ environment ++
      " is not valid. Use one of: " ++
      String.intercalate ", " g.environments))

/-- Characters before the first colon of a character list (all of them
when no colon occurs). -/
def beforeColon : List Char → List Char
  | [] => []
  | c :: cs => if c = ':' then [] else c :: beforeColon cs

/-- JS `s.split(':')[0]`: the segment of `s` before the first colon (the
whole string when there is no colon). -/
def jsSplitHead (s : String) : String :=
  String.mk (beforeColon s.data)

/-- Tests whether `pat` occurs at the start of `s`. -/
def listStarts (pat s : List Char) : Bool :=
  match pat, s with
  | [], _ => true
  | _ :: _, [] => false
  | p :: ps, c :: cs => p == c && listStarts ps cs

/-- Tests whether `pat` occurs contiguously anywhere inside `s`. -/
def listHasSeg (pat s : List Char) : Bool :=
  match s with
  | [] => pat.isEmpty
  | c :: cs => listStarts pat (c :: cs) || listHasSeg pat cs

/-- JS array indexing as it behaves inside a template literal: an index
past the end yields `undefined`, which the template renders as the text
`undefined`. -/
def jsIdx (l : List String) (i : Nat) : String :=
  (l.get? i).getD "undefined"

/-- Fixed preamble of the Jenkinsfile template: agent pod spec followed by
the environment block, up to and including the opening of `stages`. -/
def jenkinsHeader (g : GenState) : String :=
  "\npipeline \x7b\n  agent \x7b\n    kubernetes \x7b\n      yaml \x27\x27\x27\napiVersion: v1\nkind: Pod\nmetadata:\n  labels:\n    app: " ++
  g.projectName ++
  "-pipeline\nspec:\n  containers:\n  - name: jnlp\n    image: jenkins/inbound-agent:4.11.2-4\n  - name: docker\n    image: docker:20.10.12-dind\n    securityContext:\n      privileged: true\n    volumeMounts:\n    - name: docker-socket\n      mountPath: /var/run/docker.sock\n  - name: kubectl\n    image: bitnami/kubectl:latest\n    command:\n    - cat\n    tty: true\n  volumes:\n  - name: docker-socket\n    hostPath:\n      path: /var/run/docker.sock\n      type: Socket\n\x27\x27\x27\n    \x7d\n  \x7d\n  \n  environment \x7b\n    PROJECT_NAME = \"" ++
  g.projectName ++
  "\"\n    DOCKER_REGISTRY = \"" ++
  g.dockerRegistry ++
  "\"\n    NAMESPACE = \"" ++
  g.nspace ++
  "\"\n    GIT_BRANCH = \"" ++
  g.branch ++
  "\"\n  \x7d\n  \n  stages \x7b\n"

/-- Fixed Checkout stage block emitted right after the header. -/
def checkoutBlock : String :=
  "\n    stage(\x27Checkout\x27) \x7b\n      steps \x7b\n        checkout scm\n      \x7d\n    \x7d\n"

/-- Stage block template of the per-stage loop, as a function of the three
strings the loop interpolates: the stage name, the container-name segment
of the first step image, and the third command token. -/
def mkStageBlock (name img cmd : String) : String :=
  "\n    stage(\x27" ++ name ++
  "\x27) \x7b\n      steps \x7b\n        container(\x27" ++ img ++
  "\x27) \x7b\n          sh \"\"\"\n            " ++ cmd ++
  "\n          \"\"\"\n        \x7d\n      \x7d\n    \x7d\n"

/-- Fixed closing of the Jenkinsfile: end of `stages` and the post block
with the workspace clean and the success/failure messages. -/
def jenkinsFooter : String :=
  "\n  \x7d\n  \n  post \x7b\n    always \x7b\n      cleanWs()\n    \x7d\n    success \x7b\n      echo \x27Pipeline completed successfully!\x27\n    \x7d\n    failure \x7b\n      echo \x27Pipeline failed!\x27\n    \x7d\n  \x7d\n\x7d\n"

/-- Block emitted for one stage by the loop in `generateJenkinsfile`.  The
loop reads `stage.steps[0].image` and `stage.steps[0].command[2]`; when
`steps` is empty, `steps[0]` is `undefined` and reading `.image` from it
throws a TypeError, modelled as `none`.  An out-of-range `command[2]`
does not throw: it interpolates as the text `undefined` (see `jsIdx`). -/
def stageBlock (stage : Stage) : Option String :=
  match stage.steps with
  | [] => none
  | s :: _ => some (mkStageBlock stage.name (jsSplitHead s.image) (jsIdx s.command 2))

/-- Concatenation of the per-stage blocks, in insertion order; `none` as
soon as some stage makes the loop throw. -/
def jenkinsStagesSection : List Stage → Option String
  | [] => some ""
  | st :: rest =>
    (stageBlock st).bind (fun b => (jenkinsStagesSection rest).map (fun s => b ++ s))

/-- Method `generateJenkinsfile()`: header, Checkout block, one block per
stage in order, footer. -/
def generateJenkinsfile (g : GenState) : Option String :=
  (jenkinsStagesSection g.stages).map
    (fun s => jenkinsHeader g ++ checkoutBlock ++ s ++ jenkinsFooter)

/-- JS LineTerminator test: the dot of the regular expression
`/^.*github.com\//` matches any character except the four ECMAScript
line terminators `\n`, `\r`, U+2028 and U+2029. -/
def isLineTerm (c : Char) : Bool :=
  c == '\n' || c == '\r' || c == '\u2028' || c == '\u2029'

/-- Eleven-character pattern recognized by the regular expression
`/^.*github.com\//` of the source: in the pattern, the dot matches any
character except a line terminator. -/
def ghTokenChars (c : Char) : List Char :=
  ['g', 'i', 't', 'h', 'u', 'b', c, 'c', 'o', 'm', '/']

/-- Tests whether an eleven-character list matches the pattern
`github.com/` with the regex-dot wildcard in the middle. -/
def isGhToken (l : List Char) : Bool :=
  match l with
  | [a, b, c, d, e, f, w, h, i, j, k] =>
    a == 'g' && b == 'i' && c == 't' && d == 'h' && e == 'u' && f == 'b' &&
    !(isLineTerm w) && h == 'c' && i == 'o' && j == 'm' && k == '/'
  | _ => false

/-- Searches for the rightmost occurrence of the pattern that the greedy
leading `.*` of `/^.*github.com\//` can reach (no line terminator may
precede it, since the regex dot matches none of them) and returns the
characters after it; `none` when the regex does not match. -/
def ghStripSearch : List Char → Option (List Char)
  | [] => none
  | c :: cs =>
    if isLineTerm c = true then none
    else
      match ghStripSearch cs with
      | some r => some r
      | none =>
        if isGhToken ((c :: cs).take 11) = true then some ((c :: cs).drop 11) else none

/-- JS `repoUrl.replace(/^.*github.com\//, '')`: strips everything up to
and including the rightmost reachable occurrence of the pattern; the
string is returned unchanged when the regex does not match. -/
def stripGithub (s : String) : String :=
  match ghStripSearch s.data with
  | some r => String.mk r
  | none => s

/-- Method `generateBuildSpec()`: the structured document the source
builds and serializes.  The command recording the image URI is written in
the source as a malformed string literal (a quote closes before the
interpolations); it is modelled as the interpolated text of that line. -/
def generateBuildSpec (g : GenState) : Jv :=
  let region := g.registry.region
  let accountId := g.registry.accountId
  let ecrRepo := g.registry.ecrRepository
  Jv.obj [
    ("version", Jv.str "0.2"),
    ("phases", Jv.obj [
      ("pre_build", Jv.obj [
        ("commands", Jv.arr [
          Jv.str "echo Logging in to Amazon ECR...",
          Jv.str ("aws ecr get-login-password --region " ++ region ++
            " | docker login --username AWS --password-stdin " ++ accountId ++
            ".dkr.ecr." ++ region ++ ".amazonaws.com"),
          Jv.str "echo Checking if repository exists...",
          Jv.str ("aws ecr describe-repositories --repository-names " ++ ecrRepo ++
            " || aws ecr create-repository --repository-name " ++ ecrRepo),
          Jv.str "COMMIT_HASH=$(echo $CODEBUILD_RESOLVED_SOURCE_VERSION | cut -c 1-7)",
          Jv.str "IMAGE_TAG=$\x7bCOMMIT_HASH:=latest\x7d"])]),
      ("build", Jv.obj [
        ("commands", Jv.arr [
          Jv.str "echo Build started on `date`",
          Jv.str ("echo Building the Docker image: " ++ accountId ++ ".dkr.ecr." ++
            region ++ ".amazonaws.com/" ++ ecrRepo ++ ":$IMAGE_TAG"),
          Jv.str ("docker build -t " ++ accountId ++ ".dkr.ecr." ++ region ++
            ".amazonaws.com/" ++ ecrRepo ++ ":$IMAGE_TAG -f " ++ g.dockerfilePath ++ " ."),
          Jv.str ("docker tag " ++ accountId ++ ".dkr.ecr." ++ region ++
            ".amazonaws.com/" ++ ecrRepo ++ ":$IMAGE_TAG " ++ accountId ++ ".dkr.ecr." ++
            region ++ ".amazonaws.com/" ++ ecrRepo ++ ":latest")])]),
      ("post_build", Jv.obj [
        ("commands", Jv.arr [
          Jv.str "echo Build completed on `date`",
          Jv.str "echo Pushing the Docker image...",
          Jv.str ("docker push " ++ accountId ++ ".dkr.ecr." ++ region ++
            ".amazonaws.com/" ++ ecrRepo ++ ":$IMAGE_TAG"),
          Jv.str ("docker push " ++ accountId ++ ".dkr.ecr." ++ region ++
            ".amazonaws.com/" ++ ecrRepo ++ ":latest"),
          Jv.str "echo Writing artifact files...",
          Jv.str ("echo \"\x7b\"ImageURI\":\"\x27" ++ accountId ++ ".dkr.ecr." ++
            region ++ ".amazonaws.com/" ++ ecrRepo ++
            ":$IMAGE_TAG\x27\"\x7d\" > imageDefinition.json"),
          Jv.str "echo Generating Kubernetes manifests...",
          Jv.str "mkdir -p kubernetes/",
          Jv.str "envsubst < k8s/deployment.yaml > kubernetes/deployment.yaml",
          Jv.str "envsubst < k8s/service.yaml > kubernetes/service.yaml"])])]),
    ("artifacts", Jv.obj [
      ("files", Jv.arr [
        Jv.str "imageDefinition.json",
        Jv.str "appspec.yaml",
        Jv.str "kubernetes/**/*",
        Jv.str "k8s/**/*"])])]

/-- Method `generateDeployBuildSpec()`. -/
def generateDeployBuildSpec (g : GenState) : Jv :=
  Jv.obj [
    ("version", Jv.str "0.2"),
    ("phases", Jv.obj [
      ("install", Jv.obj [
        ("commands", Jv.arr [
          Jv.str "echo Installing kubectl...",
          Jv.str "curl -o kubectl https://amazon-eks.s3.us-west-2.amazonaws.com/1.21.2/2021-07-05/bin/linux/amd64/kubectl",
          Jv.str "chmod +x ./kubectl",
          Jv.str "mv ./kubectl /usr/local/bin/kubectl"])]),
      ("pre_build", Jv.obj [
        ("commands", Jv.arr [
          Jv.str "echo Configuring kubectl...",
          Jv.str "aws eks update-kubeconfig --name $\x7bEKS_CLUSTER_NAME\x7d --region $\x7bAWS_REGION\x7d"])]),
      ("build", Jv.obj [
        ("commands", Jv.arr [
          Jv.str "echo Deployment started on `date`",
          Jv.str "echo Updating image in Kubernetes manifests...",
          Jv.str "IMAGE_URI=$(cat imageDefinition.json | jq -r \x27.ImageURI\x27)",
          Jv.str "sed -i \"s|IMAGE_PLACEHOLDER|$IMAGE_URI|g\" kubernetes/deployment.yaml",
          Jv.str "echo Applying Kubernetes manifests...",
          Jv.str "kubectl apply -f kubernetes/deployment.yaml -n $\x7bNAMESPACE\x7d",
          Jv.str "kubectl apply -f kubernetes/service.yaml -n $\x7bNAMESPACE\x7d"])]),
      ("post_build", Jv.obj [
        ("commands", Jv.arr [
          Jv.str "echo Deployment completed on `date`",
          Jv.str "kubectl get pods -n $\x7bNAMESPACE\x7d",
          Jv.str "kubectl get services -n $\x7bNAMESPACE\x7d"])])])]

/-- Method `generateAwsCodePipeline()`: the CloudFormation-style document.
The embedded build specs appear here as their structured documents (the
source inlines their `yaml.dump` text). -/
def generateAwsCodePipeline (g : GenState) : Jv :=
  let pipelineName := g.projectName ++ "-pipeline"
  Jv.obj [
    ("AWSTemplateFormatVersion", Jv.str "2010-09-09"),
    ("Description", Jv.str ("AWS CodePipeline for " ++ g.projectName ++
      " Kubernetes deployment")),
    ("Resources", Jv.obj [
      ("ArtifactBucket", Jv.obj [
        ("Type", Jv.str "AWS::S3::Bucket"),
        ("Properties", Jv.obj [
          ("VersioningConfiguration", Jv.obj [
            ("Status", Jv.str "Enabled")])])]),
      ("CodeBuildServiceRole", Jv.obj [
        ("Type", Jv.str "AWS::IAM::Role"),
        ("Properties", Jv.obj [
          ("AssumeRolePolicyDocument", Jv.obj [
            ("Version", Jv.str "2012-10-17"),
            ("Statement", Jv.arr [Jv.obj [
              ("Effect", Jv.str "Allow"),
              ("Principal", Jv.obj [
                ("Service", Jv.str "codebuild.amazonaws.com")]),
              ("Action", Jv.str "sts:AssumeRole")]])]),
          ("ManagedPolicyArns", Jv.arr [
            Jv.str "arn:aws:iam::aws:policy/AmazonECR-FullAccess",
            Jv.str "arn:aws:iam::aws:policy/AmazonS3FullAccess"])])]),
      ("CodePipelineServiceRole", Jv.obj [
        ("Type", Jv.str "AWS::IAM::Role"),
        ("Properties", Jv.obj [
          ("AssumeRolePolicyDocument", Jv.obj [
            ("Version", Jv.str "2012-10-17"),
            ("Statement", Jv.arr [Jv.obj [
              ("Effect", Jv.str "Allow"),
              ("Principal", Jv.obj [
                ("Service", Jv.str "codepipeline.amazonaws.com")]),
              ("Action", Jv.str "sts:AssumeRole")]])]),
          ("ManagedPolicyArns", Jv.arr [
            Jv.str "arn:aws:iam::aws:policy/AWSCodeBuildAdminAccess",
            Jv.str "arn:aws:iam::aws:policy/AmazonS3FullAccess",
            Jv.str "arn:aws:iam::aws:policy/AmazonECR-FullAccess"])])]),
      ("DockerBuildProject", Jv.obj [
        ("Type", Jv.str "AWS::CodeBuild::Project"),
        ("Properties", Jv.obj [
          ("Name", Jv.str (g.projectName ++ "-docker-build")),
          ("ServiceRole", Jv.obj [
            ("Fn::GetAtt", Jv.arr [Jv.str "CodeBuildServiceRole", Jv.str "Arn"])]),
          ("Artifacts", Jv.obj [("Type", Jv.str "CODEPIPELINE")]),
          ("Environment", Jv.obj [
            ("Type", Jv.str "LINUX_CONTAINER"),
            ("ComputeType", Jv.str "BUILD_GENERAL1_SMALL"),
            ("Image", Jv.str "aws/codebuild/amazonlinux2-x86_64-standard:3.0"),
            ("PrivilegedMode", Jv.bool true)]),
          ("Source", Jv.obj [
            ("Type", Jv.str "CODEPIPELINE"),
            ("BuildSpec", generateBuildSpec g)])])]),
      ("KubernetesDeployProject", Jv.obj [
        ("Type", Jv.str "AWS::CodeBuild::Project"),
        ("Properties", Jv.obj [
          ("Name", Jv.str (g.projectName ++ "-k8s-deploy")),
          ("ServiceRole", Jv.obj [
            ("Fn::GetAtt", Jv.arr [Jv.str "CodeBuildServiceRole", Jv.str "Arn"])]),
          ("Artifacts", Jv.obj [("Type", Jv.str "CODEPIPELINE")]),
          ("Environment", Jv.obj [
            ("Type", Jv.str "LINUX_CONTAINER"),
            ("ComputeType", Jv.str "BUILD_GENERAL1_SMALL"),
            ("Image", Jv.str "aws/codebuild/amazonlinux2-x86_64-standard:3.0")]),
          ("Source", Jv.obj [
            ("Type", Jv.str "CODEPIPELINE"),
            ("BuildSpec", generateDeployBuildSpec g)])])]),
      ("Pipeline", Jv.obj [
        ("Type", Jv.str "AWS::CodePipeline::Pipeline"),
        ("Properties", Jv.obj [
          ("Name", Jv.str pipelineName),
          ("RoleArn", Jv.obj [
            ("Fn::GetAtt", Jv.arr [Jv.str "CodePipelineServiceRole", Jv.str "Arn"])]),
          ("ArtifactStore", Jv.obj [
            ("Type", Jv.str "S3"),
            ("Location", Jv.obj [("Ref", Jv.str "ArtifactBucket")])]),
          ("Stages", Jv.arr [
            Jv.obj [
              ("Name", Jv.str "Source"),
              ("Actions", Jv.arr [Jv.obj [
                ("Name", Jv.str "Source"),
                ("ActionTypeId", Jv.obj [
                  ("Category", Jv.str "Source"),
                  ("Owner", Jv.str "AWS"),
                  ("Provider", Jv.str "CodeStarSourceConnection"),
                  ("Version", Jv.str "1")]),
                ("Configuration", Jv.obj [
                  ("ConnectionArn", Jv.str "\x7b\x7bCONNECTION_ARN\x7d\x7d"),
                  ("FullRepositoryId", Jv.str (stripGithub g.repoUrl)),
                  ("BranchName", Jv.str g.branch)]),
                ("OutputArtifacts", Jv.arr [Jv.obj [
                  ("Name", Jv.str "SourceCode")]])]])],
            Jv.obj [
              ("Name", Jv.str "Build"),
              ("Actions", Jv.arr [Jv.obj [
                ("Name", Jv.str "BuildAndPushDockerImage"),
                ("ActionTypeId", Jv.obj [
                  ("Category", Jv.str "Build"),
                  ("Owner", Jv.str "AWS"),
                  ("Provider", Jv.str "CodeBuild"),
                  ("Version", Jv.str "1")]),
                ("Configuration", Jv.obj [
                  ("ProjectName", Jv.obj [("Ref", Jv.str "DockerBuildProject")])]),
                ("InputArtifacts", Jv.arr [Jv.obj [
                  ("Name", Jv.str "SourceCode")]]),
                ("OutputArtifacts", Jv.arr [Jv.obj [
                  ("Name", Jv.str "BuildOutput")]])]])],
            Jv.obj [
              ("Name", Jv.str "Deploy"),
              ("Actions", Jv.arr [Jv.obj [
                ("Name", Jv.str "DeployToKubernetes"),
                ("ActionTypeId", Jv.obj [
                  ("Category", Jv.str "Build"),
                  ("Owner", Jv.str "AWS"),
                  ("Provider", Jv.str "CodeBuild"),
                  ("Version", Jv.str "1")]),
                ("Configuration", Jv.obj [
                  ("ProjectName", Jv.obj [("Ref", Jv.str "KubernetesDeployProject")])]),
                ("InputArtifacts", Jv.arr [Jv.obj [
                  ("Name", Jv.str "BuildOutput")]])]])]])])])]),
    ("Outputs", Jv.obj [
      ("PipelineUrl", Jv.obj [
        ("Description", Jv.str "URL to the AWS CodePipeline console"),
        ("Value", Jv.obj [
          ("Fn::Sub", Jv.str ("https://$\x7bAWS::Region\x7d.console.aws.amazon.com/codepipeline/home?region=$\x7bAWS::Region\x7d#/view/" ++
            pipelineName))])])])]

/-- Method `generateK8sDeployment(imageName, tag, resources)`: the
Deployment document before serialization.  The source never reads the
`imageName` and `tag` parameters; the container image is always the
literal placeholder token. -/
def generateK8sDeployment (g : GenState) (imageName : String)
    (tag : String := "latest")
    (resources : Jv := Jv.obj [("cpu", Jv.str "100m"), ("memory", Jv.str "128Mi")]) : Jv :=
  Jv.obj [
    ("apiVersion", Jv.str "apps/v1"),
    ("kind", Jv.str "Deployment"),
    ("metadata", Jv.obj [
      ("name", Jv.str g.projectName),
      ("namespace", Jv.str g.nspace),
      ("labels", Jv.obj [("app", Jv.str g.projectName)])]),
    ("spec", Jv.obj [
      ("replicas", Jv.num 1),
      ("selector", Jv.obj [
        ("matchLabels", Jv.obj [("app", Jv.str g.projectName)])]),
      ("template", Jv.obj [
        ("metadata", Jv.obj [
          ("labels", Jv.obj [("app", Jv.str g.projectName)])]),
        ("spec", Jv.obj [
          ("containers", Jv.arr [Jv.obj [
            ("name", Jv.str g.projectName),
            ("image", Jv.str "IMAGE_PLACEHOLDER"),
            ("imagePullPolicy", Jv.str "Always"),
            ("ports", Jv.arr [Jv.obj [("containerPort", Jv.num 8080)]]),
            ("resources", Jv.obj [("requests", resources)])]])])])])]

/-- Method `generateK8sService(port, targetPort, type)`. -/
def generateK8sService (g : GenState) (port : Int := 80)
    (targetPort : Int := 8080) (type : String := "ClusterIP") : Jv :=
  Jv.obj [
    ("apiVersion", Jv.str "v1"),
    ("kind", Jv.str "Service"),
    ("metadata", Jv.obj [
      ("name", Jv.str g.projectName),
      ("namespace", Jv.str g.nspace),
      ("labels", Jv.obj [("app", Jv.str g.projectName)])]),
    ("spec", Jv.obj [
      ("type", Jv.str type),
      ("ports", Jv.arr [Jv.obj [
        ("port", Jv.num port),
        ("targetPort", Jv.num targetPort),
        ("protocol", Jv.str "TCP")]]),
      ("selector", Jv.obj [("app", Jv.str g.projectName)])])]

/-- Content written to a file: the Jenkinsfile is plain text, everything
else is a structured document serialized by the external YAML capability
(equal documents serialize to identical bytes). -/
inductive FileContent where
  | text : String → FileContent
  | yamlDoc : Jv → FileContent

/-- Object returned by `saveToFiles`. -/
structure SaveResult where
  jenkinsfilePath : String
  awsCodePipelinePath : String
  buildspecPath : String
  deployBuildspecPath : String
  k8sDir : String

/-- Node `path.join(a, b)` for the segment shapes used in `saveToFiles`:
plain concatenation with one separator (no argument used here triggers
normalization beyond that). -/
def pathJoin (a b : String) : String :=
  a ++ "/" ++ b

/-- Method `saveToFiles(outputDir)`: the ordered list of file writes the
call performs (path and content, in write order) paired with the returned
object.  Directory creation is the external collaborator and is not a
file write.  `generateJenkinsfile` runs before the first write, so when
it throws the whole call throws having written nothing (`none`). -/
def saveToFiles (g : GenState) (outputDir : String := "./pipeline") :
    Option (List (String × FileContent) × SaveResult) :=
  (generateJenkinsfile g).map (fun jf =>
    let k8sDir := pathJoin outputDir "k8s"
    let jenkinsfilePath := pathJoin outputDir "Jenkinsfile"
    let awsCodePipelinePath := pathJoin outputDir "aws-codepipeline.yaml"
    let buildspecPath := pathJoin outputDir "buildspec.yml"
    let deployBuildspecPath := pathJoin outputDir "deploy-buildspec.yml"
    let envWrites := g.environments.flatMap (fun env =>
      [(pathJoin (pathJoin k8sDir env) "deployment.yaml",
        FileContent.yamlDoc (generateK8sDeployment g (g.projectName ++ "-" ++ env))),
       (pathJoin (pathJoin k8sDir env) "service.yaml",
        FileContent.yamlDoc (generateK8sService g))])
    ([(jenkinsfilePath, FileContent.text jf),
      (awsCodePipelinePath, FileContent.yamlDoc (generateAwsCodePipeline g)),
      (buildspecPath, FileContent.yamlDoc (generateBuildSpec g)),
      (deployBuildspecPath, FileContent.yamlDoc (generateDeployBuildSpec g))] ++ envWrites,
     { jenkinsfilePath := jenkinsfilePath
       awsCodePipelinePath := awsCodePipelinePath
       buildspecPath := buildspecPath
       deployBuildspecPath := deployBuildspecPath
       k8sDir := k8sDir }))

/-- File writes performed by a `saveToFiles` call (empty when the call
throws before writing). -/
def savedWrites (g : GenState) (outputDir : String) : List (String × FileContent) :=
  match saveToFiles g outputDir with
  | none => []
  | some p => p.1

/-- Paths carried by the object a `saveToFiles` call returns. -/
def savedResultPaths (g : GenState) (outputDir : String) : List String :=
  match saveToFiles g outputDir with
  | none => []
  | some p => [p.2.jenkinsfilePath, p.2.awsCodePipelinePath, p.2.buildspecPath,
               p.2.deployBuildspecPath, p.2.k8sDir]

/-- Generator built with an empty options object, used as the concrete
instance of the witnesses. -/
def sampleGen : GenState :=
  mkGenerator {}

/-- Lookup of a key in a mapping document (first binding wins, as in the
JS object literals where every key is distinct). -/
def jGet (v : Jv) (key : String) : Option Jv :=
  match v with
  | Jv.obj fields => (fields.find? (fun kv => kv.1 == key)).map (fun kv => kv.2)
  | _ => none

/-- Head element of a sequence document. -/
def jArrHead (v : Jv) : Option Jv :=
  match v with
  | Jv.arr (x :: _) => some x
  | _ => none

/-- Elements of a sequence document. -/
def jArrElems (v : Jv) : Option (List Jv) :=
  match v with
  | Jv.arr l => some l
  | _ => none

/-- Names of the top-level pipeline stages of a generated cloud pipeline
document, in order. -/
def pipelineStageNames (doc : Jv) : Option (List (Option Jv)) :=
  ((((jGet doc "Resources").bind (fun v => jGet v "Pipeline")).bind
    (fun v => jGet v "Properties")).bind (fun v => jGet v "Stages")).bind
    (fun v => (jArrElems v).map (fun l => l.map (fun st => jGet st "Name")))

/-- Repository identifier configured on the source action of a generated
cloud pipeline document. -/
def sourceRepoId (doc : Jv) : Option Jv :=
  (((((((jGet doc "Resources").bind (fun v => jGet v "Pipeline")).bind
    (fun v => jGet v "Properties")).bind (fun v => jGet v "Stages")).bind
    jArrHead).bind (fun v => jGet v "Actions")).bind jArrHead).bind
    (fun v => (jGet v "Configuration").bind (fun c => jGet c "FullRepositoryId"))

/-- First container of a generated Deployment document. -/
def deploymentContainer (doc : Jv) : Option Jv :=
  ((((jGet doc "spec").bind (fun v => jGet v "template")).bind
    (fun v => jGet v "spec")).bind (fun v => jGet v "containers")).bind jArrHead

/-- Image field of a generated Deployment document. -/
def deploymentImage (doc : Jv) : Option Jv :=
  (deploymentContainer doc).bind (fun c => jGet c "image")

/-- Resource-requests block of a generated Deployment document. -/
def deploymentRequests (doc : Jv) : Option Jv :=
  ((deploymentContainer doc).bind (fun c => jGet c "resources")).bind
    (fun r => jGet r "requests")

/-- Claim C1: for every generator state and every environment string not a
member of the known-environments set, `addDeployStage` fails synchronously
with an invalid-argument error whose message enumerates the valid set, and
the stage model is unchanged (same stage count before and after). -/
theorem addDeployStage_invalid_env (g : GenState) (environment : String)
    (resources : Jv) (h : environment ∉ g.environments) :
    addDeployStage g environment resources =
      (g, some ("Environment " ++ environment ++ " is not valid. Use one of: " ++
        String.intercalate ", " g.environments)) ∧
    (addDeployStage g environment resources).1.stages.length = g.stages.length := by
  refine ⟨?_, ?_⟩ <;> simp [addDeployStage, h]

/-- Witness for C1 at the concrete generator built from empty options and
the unknown environment `qa`. -/
theorem addDeployStage_invalid_env_witness :
    addDeployStage sampleGen "qa" (Jv.obj []) =
      (sampleGen, some ("Environment " ++ "qa" ++ " is not valid. Use one of: " ++
        String.intercalate ", " sampleGen.environments)) ∧
    (addDeployStage sampleGen "qa" (Jv.obj [])).1.stages.length = sampleGen.stages.length :=
  addDeployStage_invalid_env sampleGen "qa" (Jv.obj []) (by decide)

/-- Claim C5 counterexample: after `addDeployStage` on a valid
environment, every step of the appended stage has an empty env list (the
`ENVIRONMENT` pair is not carried in any step's environment-variable
list); the pair sits on the stage object instead. -/
theorem deployStage_env_not_on_step :
    ((addDeployStage sampleGen "dev" (Jv.obj [])).1.stages.map Stage.steps).map
        (List.map Step.env) = [[[]]] ∧
    ({ name := "ENVIRONMENT", value := "dev" } : EnvVar) ∉
      (List.map Step.env (deployStageFor "dev").steps).flatten := by decide

/-- Claim C5 (amended): for every valid environment, the appended stage
has exactly one step running the fixed kubectl-apply command, and the
`ENVIRONMENT` name/value pair is carried in the stage's env list (the
step itself has no env attribute). -/
theorem addDeployStage_valid_env (g : GenState) (environment : String)
    (resources : Jv) (h : environment ∈ g.environments) :
    addDeployStage g environment resources = (addStage g (deployStageFor environment), none) ∧
    (deployStageFor environment).steps =
      [{ name := "kubectl-apply", image := "bitnami/kubectl:latest",
         command := ["sh", "-c", "kubectl apply -f /workspace/k8s/$\x7bENVIRONMENT\x7d/"] }] ∧
    (deployStageFor environment).env = [{ name := "ENVIRONMENT", value := environment }] := by
  refine ⟨?_, rfl, rfl⟩
  simp [addDeployStage, h]

/-- Witness for the amended C5 at the concrete generator and the valid
environment `dev`. -/
theorem addDeployStage_valid_env_witness :
    addDeployStage sampleGen "dev" (Jv.obj []) =
      (addStage sampleGen (deployStageFor "dev"), none) ∧
    (deployStageFor "dev").steps =
      [{ name := "kubectl-apply", image := "bitnami/kubectl:latest",
         command := ["sh", "-c", "kubectl apply -f /workspace/k8s/$\x7bENVIRONMENT\x7d/"] }] ∧
    (deployStageFor "dev").env = [{ name := "ENVIRONMENT", value := "dev" }] :=
  addDeployStage_valid_env sampleGen "dev" (Jv.obj []) (by decide)

/-- Claim C2: for every generator state the cloud pipeline document has
exactly three top-level pipeline stages named, in order, Source, Build,
Deploy, and the document does not depend on the stage model: rendering
with any two stage lists gives equal documents. -/
theorem generateAwsCodePipeline_fixed_stages (g : GenState) (s1 s2 : List Stage) :
    pipelineStageNames (generateAwsCodePipeline g) =
      some [some (Jv.str "Source"), some (Jv.str "Build"), some (Jv.str "Deploy")] ∧
    generateAwsCodePipeline { g with stages := s1 } =
      generateAwsCodePipeline { g with stages := s2 } :=
  ⟨rfl, rfl⟩

/-- Claim C6: for every `imageName`, `tag` and `resources`, the generated
Deployment document carries the literal placeholder token as its container
image (never the supplied name:tag reference), and its resource-requests
block is exactly the `resources` argument. -/
theorem generateK8sDeployment_placeholder (g : GenState) (imageName tag : String)
    (resources : Jv) :
    deploymentImage (generateK8sDeployment g imageName tag resources) =
      some (Jv.str "IMAGE_PLACEHOLDER") ∧
    deploymentImage (generateK8sDeployment g imageName tag resources) ≠
      some (Jv.str (imageName ++ ":" ++ tag)) ∧
    deploymentRequests (generateK8sDeployment g imageName tag resources) =
      some resources := by
  refine ⟨rfl, ?_, rfl⟩
  intro hcontra
  have h0 : some (Jv.str "IMAGE_PLACEHOLDER") = some (Jv.str (imageName ++ ":" ++ tag)) :=
    (rfl : deploymentImage (generateK8sDeployment g imageName tag resources) =
      some (Jv.str "IMAGE_PLACEHOLDER")).symm.trans hcontra
  injection h0 with h1
  injection h1 with h2
  have hmem : ':' ∈ (imageName ++ ":" ++ tag).data := by
    simp [String.data_append]
  rw [← h2] at hmem
  exact absurd hmem (by decide)

/-- Claim C3: the stage block emitted for a stage is fully determined by
the stage name, the segment of the first step's image before the first
colon, and the third token of the first step's command, embedded verbatim
in the shell block; later steps and other command tokens have no effect. -/
theorem stageBlock_reads_first_step_only
    (st : Stage) (s : Step) (rest : List Step) (a b c : String) (cr : List String)
    (hsteps : st.steps = s :: rest) (hcmd : s.command = a :: b :: c :: cr) :
    stageBlock st = some (mkStageBlock st.name (jsSplitHead s.image) c) ∧
    ∀ (st2 : Stage) (s2 : Step) (rest2 : List Step),
      st2.steps = s2 :: rest2 → st2.name = st.name →
      jsSplitHead s2.image = jsSplitHead s.image →
      s2.command.get? 2 = s.command.get? 2 →
      stageBlock st2 = stageBlock st := by
  have hidx : jsIdx s.command 2 = c := by simp [jsIdx, hcmd]
  refine ⟨by simp [stageBlock, hsteps, hidx], ?_⟩
  intro st2 s2 rest2 h1 h2 h3 h4
  simp only [List.get?_eq_getElem?] at h4
  simp [stageBlock, hsteps, h1, h2, h3, jsIdx, h4]

/-- Two-step stage used as the concrete input of the C3 witness: its
second step and its non-third command tokens are visibly ignored. -/
def twoStepStage : Stage :=
  { name := "t"
    steps := [{ name := "s1", image := "node:14", command := ["sh", "-c", "make"] },
              { name := "ignored", image := "other:1", command := ["x"] }] }

/-- Witness for C3 at the concrete two-step stage. -/
theorem stageBlock_reads_first_step_only_witness :
    stageBlock twoStepStage = some (mkStageBlock "t" (jsSplitHead "node:14") "make") :=
  (stageBlock_reads_first_step_only twoStepStage
    { name := "s1", image := "node:14", command := ["sh", "-c", "make"] }
    [{ name := "ignored", image := "other:1", command := ["x"] }]
    "sh" "-c" "make" [] rfl rfl).1

/-- Totality of the per-stage loop: it survives exactly the stage lists in
which every stage has a nonempty steps list. -/
theorem jenkinsStagesSection_isSome_iff (l : List Stage) :
    (jenkinsStagesSection l).isSome = true ↔ ∀ st ∈ l, st.steps ≠ [] := by
  induction l with
  | nil => simp [jenkinsStagesSection]
  | cons st rest ih =>
    cases hs : st.steps with
    | nil => simp [jenkinsStagesSection, stageBlock, hs]
    | cons s ss => simp [jenkinsStagesSection, stageBlock, hs, ih]

/-- Claim C9 (amended): `generateJenkinsfile` returns a string exactly
when every stage of the model has a nonempty steps list (a stage with zero
steps makes the renderer throw); a first-step command with fewer than
three tokens does NOT make it fail — index 2 is `undefined` and the block
embeds the literal text `undefined`. -/
theorem generateJenkinsfile_total_iff (g : GenState) :
    ((generateJenkinsfile g).isSome = true ↔ ∀ st ∈ g.stages, st.steps ≠ []) ∧
    ∀ (st : Stage) (s : Step) (rest : List Step), st.steps = s :: rest →
      s.command.get? 2 = none →
      stageBlock st = some (mkStageBlock st.name (jsSplitHead s.image) "undefined") := by
  constructor
  · rw [← jenkinsStagesSection_isSome_iff g.stages]
    simp [generateJenkinsfile]
  · intro st s rest hsteps hcmd
    simp only [List.get?_eq_getElem?] at hcmd
    simp [stageBlock, hsteps, jsIdx, hcmd]

/-- Stage whose single step has a two-token command, used to exercise the
short-command behavior. -/
def shortCmdStage : Stage :=
  { name := "s", steps := [{ name := "x", image := "busybox", command := ["sh"] }] }

/-- Claim C9 counterexample: a stage with a one-token command does not
make the renderer fail — the render succeeds and the block embeds the
text `undefined` where the third command token would go. -/
theorem shortCommand_does_not_fail :
    (generateJenkinsfile { sampleGen with stages := [shortCmdStage] }).isSome = true ∧
    stageBlock shortCmdStage = some (mkStageBlock "s" "busybox" "undefined") :=
  ⟨rfl, rfl⟩

/-- Witness for the amended C9 at a concrete stage with a two-token
command. -/
theorem generateJenkinsfile_total_iff_witness :
    stageBlock { name := "w", steps := [{ name := "x", image := "img:9", command := ["a", "b"] }] } =
      some (mkStageBlock "w" (jsSplitHead "img:9") "undefined") :=
  (generateJenkinsfile_total_iff sampleGen).2
    { name := "w", steps := [{ name := "x", image := "img:9", command := ["a", "b"] }] }
    { name := "x", image := "img:9", command := ["a", "b"] } [] rfl rfl

/-- Title prefix of the block emitted for a stage of the given name. -/
def stageTitle (name : String) : String :=
  "\n    stage(\x27" ++ name ++ "\x27)"

/-- Concatenation of a list of strings, in order. -/
def strConcat : List String → String
  | [] => ""
  | s :: r => s ++ strConcat r

/-- Decomposition of the per-stage loop output: one block per stage, in
insertion order, each opening with the title of its stage. -/
theorem jenkinsStagesSection_decomp (l : List Stage) (h : ∀ st ∈ l, st.steps ≠ []) :
    ∃ blocks : List String, jenkinsStagesSection l = some (strConcat blocks) ∧
      List.Forall₂ (fun st b => ∃ t, b = stageTitle st.name ++ t) l blocks := by
  induction l with
  | nil => exact ⟨[], rfl, List.Forall₂.nil⟩
  | cons st rest ih =>
    obtain ⟨blocks, hb, hf⟩ := ih (fun x hx => h x (List.mem_cons_of_mem _ hx))
    obtain ⟨s, ss, hs⟩ := List.exists_cons_of_ne_nil (h st (List.mem_cons_self _ _))
    refine ⟨mkStageBlock st.name (jsSplitHead s.image) (jsIdx s.command 2) :: blocks, ?_, ?_⟩
    · simp [jenkinsStagesSection, stageBlock, hs, hb, strConcat]
    · refine List.Forall₂.cons ⟨" \x7b\n      steps \x7b\n        container(\x27" ++
        jsSplitHead s.image ++ "\x27) \x7b\n          sh \"\"\"\n            " ++
        jsIdx s.command 2 ++ "\n          \"\"\"\n        \x7d\n      \x7d\n    \x7d\n", ?_⟩ hf
      simp only [mkStageBlock, stageTitle, String.append_assoc]
      rfl

/-- Claim C4: for every stage model rendered without throwing, the
Jenkinsfile is the fixed header, the Checkout block, one block per stage
in insertion order titled with that stage's exact name (duplicates kept
positionally), and the fixed post block. -/
theorem generateJenkinsfile_layout (g : GenState) (h : ∀ st ∈ g.stages, st.steps ≠ []) :
    ∃ blocks : List String,
      jenkinsStagesSection g.stages = some (strConcat blocks) ∧
      generateJenkinsfile g =
        some (jenkinsHeader g ++ checkoutBlock ++ strConcat blocks ++ jenkinsFooter) ∧
      List.Forall₂ (fun st b => ∃ t, b = stageTitle st.name ++ t) g.stages blocks := by
  obtain ⟨blocks, hb, hf⟩ := jenkinsStagesSection_decomp g.stages h
  exact ⟨blocks, hb, by simp [generateJenkinsfile, hb], hf⟩

/-- Witness for C4 at the concrete generator with an empty stage model. -/
theorem generateJenkinsfile_layout_witness :
    generateJenkinsfile sampleGen =
      some (jenkinsHeader sampleGen ++ checkoutBlock ++ strConcat [] ++ jenkinsFooter) := by
  obtain ⟨blocks, hb, hgen, hf⟩ :=
    generateJenkinsfile_layout sampleGen (fun st hst => absurd hst (List.not_mem_nil st))
  have hbl : blocks = [] := List.forall₂_nil_left_iff.1 hf
  rw [hbl] at hgen
  exact hgen

/-- Claim C8 (amended): a non-throwing `saveToFiles(outputDir)` writes, in
order, the Jenkinsfile, the AWS CodePipeline template, the two build-spec
files, and a deployment.yaml and service.yaml per known environment; the
returned object carries the four file paths plus the k8s directory path —
the per-environment manifest paths are written but not returned. -/
theorem saveToFiles_paths (g : GenState) (outputDir : String)
    (h : (generateJenkinsfile g).isSome = true) :
    (savedWrites g outputDir).map Prod.fst =
      [pathJoin outputDir "Jenkinsfile", pathJoin outputDir "aws-codepipeline.yaml",
       pathJoin outputDir "buildspec.yml", pathJoin outputDir "deploy-buildspec.yml"] ++
      g.environments.flatMap (fun env =>
        [pathJoin (pathJoin (pathJoin outputDir "k8s") env) "deployment.yaml",
         pathJoin (pathJoin (pathJoin outputDir "k8s") env) "service.yaml"]) ∧
    savedResultPaths g outputDir =
      [pathJoin outputDir "Jenkinsfile", pathJoin outputDir "aws-codepipeline.yaml",
       pathJoin outputDir "buildspec.yml", pathJoin outputDir "deploy-buildspec.yml",
       pathJoin outputDir "k8s"] := by
  obtain ⟨jf, hjf⟩ := Option.isSome_iff_exists.1 h
  constructor
  · simp [savedWrites, saveToFiles, hjf, List.map_flatMap]
  · simp [savedResultPaths, saveToFiles, hjf]

/-- Claim C8 counterexample: the per-environment manifest file
`out/k8s/dev/deployment.yaml` is written by the call but its path is not
identified by the returned value (which only carries the four top-level
file paths and the k8s directory). -/
theorem saveToFiles_return_misses_manifests :
    "out/k8s/dev/deployment.yaml" ∈ (savedWrites sampleGen "out").map Prod.fst ∧
    "out/k8s/dev/deployment.yaml" ∉ savedResultPaths sampleGen "out" := by decide

/-- Witness for the amended C8 at the concrete generator. -/
theorem saveToFiles_paths_witness :
    savedResultPaths sampleGen "out" =
      ["out/Jenkinsfile", "out/aws-codepipeline.yaml", "out/buildspec.yml",
       "out/deploy-buildspec.yml", "out/k8s"] :=
  (saveToFiles_paths sampleGen "out" rfl).2

/-- Claim C10: the generated Deployment document is independent of the
`imageName` and `tag` arguments, and consequently the deployment.yaml
content written by `saveToFiles` is identical (hence byte-identical after
serialization) across all environments: the entry of any environment `e2`
carries the very content computed for `e1`. -/
theorem generateK8sDeployment_ignores_image_args (g : GenState)
    (n1 t1 n2 t2 : String) (resources : Jv) (outputDir e1 e2 : String)
    (h0 : (generateJenkinsfile g).isSome = true)
    (h1 : e1 ∈ g.environments) (h2 : e2 ∈ g.environments) :
    generateK8sDeployment g n1 t1 resources = generateK8sDeployment g n2 t2 resources ∧
    (pathJoin (pathJoin (pathJoin outputDir "k8s") e1) "deployment.yaml",
      FileContent.yamlDoc (generateK8sDeployment g (g.projectName ++ "-" ++ e1))) ∈
      savedWrites g outputDir ∧
    (pathJoin (pathJoin (pathJoin outputDir "k8s") e2) "deployment.yaml",
      FileContent.yamlDoc (generateK8sDeployment g (g.projectName ++ "-" ++ e1))) ∈
      savedWrites g outputDir := by
  obtain ⟨jf, hjf⟩ := Option.isSome_iff_exists.1 h0
  refine ⟨rfl, ?_, ?_⟩
  · simp [savedWrites, saveToFiles, hjf, List.mem_flatMap]
    exact Or.inr (Or.inr (Or.inr ⟨e1, h1, Or.inl ⟨rfl, rfl⟩⟩))
  · simp [savedWrites, saveToFiles, hjf, List.mem_flatMap]
    exact Or.inr (Or.inr (Or.inr ⟨e2, h2, Or.inl ⟨rfl, rfl⟩⟩))

/-- Witness for C10 at the concrete generator, output directory `out`, and
the environments `dev` and `prod`. -/
theorem generateK8sDeployment_ignores_image_args_witness :
    generateK8sDeployment sampleGen "a" "1" (Jv.obj []) =
      generateK8sDeployment sampleGen "b" "2" (Jv.obj []) ∧
    ("out/k8s/dev/deployment.yaml",
      FileContent.yamlDoc (generateK8sDeployment sampleGen (sampleGen.projectName ++ "-" ++ "dev"))) ∈
      savedWrites sampleGen "out" ∧
    ("out/k8s/prod/deployment.yaml",
      FileContent.yamlDoc (generateK8sDeployment sampleGen (sampleGen.projectName ++ "-" ++ "dev"))) ∈
      savedWrites sampleGen "out" :=
  generateK8sDeployment_ignores_image_args sampleGen "a" "1" "b" "2" (Jv.obj [])
    "out" "dev" "prod" rfl (by decide) (by decide)

/-- Declarative occurrence predicate, the specification side of the C7
refinement: `cs` splits as a prefix `p` free of line terminators, then
the eleven character pattern `github.com/` with a non-line-terminator
wildcard in the dot position, then `r` (the greedy anchored `.*` cannot
cross a line terminator). -/
def GhOccurrence (cs p r : List Char) : Prop :=
  ∃ c : Char, isLineTerm c = false ∧ (∀ y ∈ p, isLineTerm y = false) ∧
    cs = p ++ ghTokenChars c ++ r

/-- Characterization of the token test. -/
theorem isGhToken_iff (l : List Char) :
    isGhToken l = true ↔ ∃ c, isLineTerm c = false ∧ l = ghTokenChars c := by
  constructor
  · intro h
    rcases l with - | ⟨a, - | ⟨b, - | ⟨c, - | ⟨d, - | ⟨e, - | ⟨f, - | ⟨w, - | ⟨x, - |
      ⟨i, - | ⟨j, - | ⟨k, - | ⟨m, t⟩⟩⟩⟩⟩⟩⟩⟩⟩⟩⟩⟩ <;>
      simp [isGhToken] at h
    refine ⟨w, by tauto, ?_⟩
    simp_all [ghTokenChars]
  · rintro ⟨c, hc, rfl⟩
    simp [isGhToken, ghTokenChars, hc]

/-- No occurrence fits in the empty list. -/
theorem ghOcc_nil (p r : List Char) : ¬ GhOccurrence [] p r := by
  rintro ⟨c, -, -, h⟩
  simp [ghTokenChars] at h

/-- Occurrences with an empty prefix are exactly the token tests on the
first eleven characters. -/
theorem ghOcc_head_iff (cs r : List Char) :
    GhOccurrence cs [] r ↔ (isGhToken (cs.take 11) = true ∧ cs.drop 11 = r) := by
  constructor
  · rintro ⟨c, hc, -, rfl⟩
    have hlen : (ghTokenChars c).length = 11 := rfl
    rw [List.nil_append]
    constructor
    · rw [← hlen, List.take_left]
      exact (isGhToken_iff _).2 ⟨c, hc, rfl⟩
    · rw [← hlen, List.drop_left]
  · rintro ⟨htok, hdrop⟩
    obtain ⟨c, hc, htk⟩ := (isGhToken_iff _).1 htok
    refine ⟨c, hc, by simp, ?_⟩
    conv_lhs => rw [← List.take_append_drop 11 cs]
    rw [htk, hdrop, List.nil_append]

/-- Occurrences in a cons split into a head occurrence or a shifted one. -/
theorem ghOcc_cons_iff (x : Char) (cs p r : List Char) :
    GhOccurrence (x :: cs) p r ↔
      ((p = [] ∧ GhOccurrence (x :: cs) [] r) ∨
       (∃ p2, p = x :: p2 ∧ isLineTerm x = false ∧ GhOccurrence cs p2 r)) := by
  constructor
  · rintro ⟨c, hc, hnp, heq⟩
    cases p with
    | nil => exact Or.inl ⟨rfl, ⟨c, hc, by simp, heq⟩⟩
    | cons y p2 =>
      simp only [List.cons_append] at heq
      injection heq with h1 h2
      subst h1
      refine Or.inr ⟨p2, rfl, hnp x (List.mem_cons_self _ _), ⟨c, hc, ?_, h2⟩⟩
      intro z hz
      exact hnp z (List.mem_cons_of_mem _ hz)
  · rintro (⟨rfl, ⟨c, hc, -, heq⟩⟩ | ⟨p2, rfl, hx, ⟨c, hc, hnp, heq⟩⟩)
    · exact ⟨c, hc, by simp, heq⟩
    · refine ⟨c, hc, ?_, ?_⟩
      · intro y hy
        rcases List.mem_cons.1 hy with he | hm
        · rw [he]
          exact hx
        · exact hnp y hm
      · simp [heq]

/-- Length bookkeeping of an occurrence. -/
theorem ghOcc_length (cs p r : List Char) (h : GhOccurrence cs p r) :
    cs.length = p.length + 11 + r.length := by
  obtain ⟨c, -, -, rfl⟩ := h
  simp only [List.length_append, ghTokenChars, List.length_cons, List.length_nil]

/-- A successful search yields an occurrence. -/
theorem ghStripSearch_some_occ (cs : List Char) :
    ∀ r, ghStripSearch cs = some r → ∃ p, GhOccurrence cs p r := by
  induction cs with
  | nil => intro r h; simp [ghStripSearch] at h
  | cons x cs ih =>
    intro r h
    by_cases hx : isLineTerm x = true
    · simp [ghStripSearch, hx] at h
    · have hxf : isLineTerm x = false := by simpa using hx
      rw [ghStripSearch, if_neg hx] at h
      cases hrec : ghStripSearch cs with
      | some r0 =>
        rw [hrec] at h
        have hr : r0 = r := by simpa using h
        obtain ⟨p, hocc⟩ := ih r0 hrec
        rw [← hr]
        exact ⟨x :: p, (ghOcc_cons_iff _ _ _ _).2 (Or.inr ⟨p, rfl, hxf, hocc⟩)⟩
      | none =>
        rw [hrec] at h
        by_cases htok : isGhToken ((x :: cs).take 11) = true
        · rw [if_pos htok] at h
          injection h with hr
          exact ⟨[], (ghOcc_head_iff _ _).2 ⟨htok, hr⟩⟩
        · rw [if_neg htok] at h
          exact absurd h (by simp)

/-- The search fails exactly when no occurrence exists. -/
theorem ghStripSearch_none_iff (cs : List Char) :
    ghStripSearch cs = none ↔ ∀ p r, ¬ GhOccurrence cs p r := by
  induction cs with
  | nil =>
    constructor
    · intro _ p r
      exact ghOcc_nil p r
    · intro _
      rfl
  | cons x cs ih =>
    constructor
    · intro h p r hocc
      rcases (ghOcc_cons_iff x cs p r).1 hocc with ⟨rfl, hhead⟩ | ⟨p2, rfl, hx, htail⟩
      · obtain ⟨htok, -⟩ := (ghOcc_head_iff _ _).1 hhead
        have hx : ¬ isLineTerm x = true := by
          obtain ⟨c, -, -, heq⟩ := hhead
          simp only [List.nil_append, ghTokenChars, List.cons_append] at heq
          injection heq with h1 h2
          rw [h1]
          decide
        rw [ghStripSearch, if_neg hx] at h
        cases hrec : ghStripSearch cs with
        | some r0 => rw [hrec] at h; simp at h
        | none => rw [hrec, if_pos htok] at h; simp at h
      · have hx2 : ¬ isLineTerm x = true := by simp [hx]
        rw [ghStripSearch, if_neg hx2] at h
        cases hrec : ghStripSearch cs with
        | some r0 => rw [hrec] at h; simp at h
        | none => exact (ih.1 hrec) p2 r htail
    · intro hno
      by_cases hx : isLineTerm x = true
      · simp [ghStripSearch, hx]
      · have hxf : isLineTerm x = false := by simpa using hx
        rw [ghStripSearch, if_neg hx]
        cases hrec : ghStripSearch cs with
        | some r0 =>
          exfalso
          obtain ⟨p, hocc⟩ := ghStripSearch_some_occ cs r0 hrec
          exact hno (x :: p) r0 ((ghOcc_cons_iff _ _ _ _).2 (Or.inr ⟨p, rfl, hxf, hocc⟩))
        | none =>
          by_cases htok : isGhToken ((x :: cs).take 11) = true
          · exact absurd ((ghOcc_head_iff _ _).2 ⟨htok, rfl⟩) (hno [] ((x :: cs).drop 11))
          · rw [if_neg htok]

/-- A successful search returns the rightmost occurrence: its suffix is
the shortest one over all occurrences. -/
theorem ghStripSearch_some_min (cs : List Char) :
    ∀ r, ghStripSearch cs = some r →
      ∃ p, GhOccurrence cs p r ∧
        ∀ p2 r2, GhOccurrence cs p2 r2 → r.length ≤ r2.length := by
  induction cs with
  | nil => intro r h; simp [ghStripSearch] at h
  | cons x cs ih =>
    intro r h
    by_cases hx : isLineTerm x = true
    · simp [ghStripSearch, hx] at h
    · have hxf : isLineTerm x = false := by simpa using hx
      rw [ghStripSearch, if_neg hx] at h
      cases hrec : ghStripSearch cs with
      | some r0 =>
        rw [hrec] at h
        have hr : r0 = r := by simpa using h
        obtain ⟨p, hocc, hmin⟩ := ih r0 hrec
        rw [← hr]
        refine ⟨x :: p, (ghOcc_cons_iff _ _ _ _).2 (Or.inr ⟨p, rfl, hxf, hocc⟩), ?_⟩
        intro p2 r2 h2
        rcases (ghOcc_cons_iff _ _ _ _).1 h2 with ⟨rfl, hhead⟩ | ⟨p3, rfl, -, htail⟩
        · have l1 := ghOcc_length _ _ _ hhead
          have l2 := ghOcc_length _ _ _ hocc
          simp only [List.length_cons, List.length_nil] at l1
          omega
        · exact hmin p3 r2 htail
      | none =>
        rw [hrec] at h
        by_cases htok : isGhToken ((x :: cs).take 11) = true
        · rw [if_pos htok] at h
          injection h with hr
          refine ⟨[], (ghOcc_head_iff _ _).2 ⟨htok, hr⟩, ?_⟩
          intro p2 r2 h2
          rcases (ghOcc_cons_iff _ _ _ _).1 h2 with ⟨rfl, hhead⟩ | ⟨p3, rfl, -, htail⟩
          · obtain ⟨-, hdrop⟩ := (ghOcc_head_iff _ _).1 hhead
            exact le_of_eq (by rw [← hr, hdrop])
          · exact absurd htail ((ghStripSearch_none_iff cs).1 hrec p3 r2)
        · rw [if_neg htok] at h
          exact absurd h (by simp)

/-- Claim C7 (amended): the pipeline source-action repository id is the
repository URL stripped by the code regular expression; concretely, the
regex token is `github.com/` with the dot matching any character other
than a line terminator (`\n`, `\r`, U+2028, U+2029); when the URL has no
reachable occurrence of that pattern (reachable: not preceded by a line
terminator) it is passed through unchanged and no error is raised, and
otherwise everything up to and including the rightmost reachable
occurrence is removed. -/
theorem sourceRepoId_strip_characterization :
    (∀ g : GenState, sourceRepoId (generateAwsCodePipeline g) =
      some (Jv.str (stripGithub g.repoUrl))) ∧
    ∀ s : String,
      (ghStripSearch s.data = none ∧ stripGithub s = s ∧
        ∀ p r, ¬ GhOccurrence s.data p r) ∨
      (∃ p r, GhOccurrence s.data p r ∧ stripGithub s = String.mk r ∧
        ∀ p2 r2, GhOccurrence s.data p2 r2 → r.length ≤ r2.length) := by
  refine ⟨fun g => rfl, fun s => ?_⟩
  cases h : ghStripSearch s.data with
  | none =>
    exact Or.inl ⟨rfl, by simp [stripGithub, h], (ghStripSearch_none_iff _).1 h⟩
  | some r =>
    obtain ⟨p, hocc, hmin⟩ := ghStripSearch_some_min _ _ h
    exact Or.inr ⟨p, r, hocc, by simp [stripGithub, h], hmin⟩

/-- Claim C7 counterexample: the URL `https://githubXcom/o/r` does not
contain the literal token `github.com/`, yet the derivation does not
return it unmodified — the regex dot matches `X` and the prefix is
stripped, yielding `o/r`. -/
theorem stripGithub_wildcard_counterexample :
    listHasSeg "github.com/".data "https://githubXcom/o/r".data = false ∧
    stripGithub "https://githubXcom/o/r" = "o/r" ∧
    "o/r" ≠ "https://githubXcom/o/r" := by
  refine ⟨by decide, by decide, by decide⟩
